import Mathlib

/-!
# Verification of `chrome-launcher` (src/src/chrome-launcher.ts)

A shallow embedding of the process-lifecycle supervisor in
`src/src/chrome-launcher.ts`: the `Launcher` class (constructor, `flags`,
`prepare`, `launch`, `spawnProcess`, `waitUntilReady`, `kill`, `destroyTmp`),
the module-level instance registry with its SIGINT handler bookkeeping
(`launch` facade, `killAll`), translated function by function from the
TypeScript source.  External collaborators (platform probe, temp-directory
creation, port allocation, chrome-finder, the spawned process) are modelled
as an explicit environment record; side effects (file opens, spawns, probes,
deletions) are recorded in an explicit effect trace.
-/

namespace ChromeLauncher

/-- The platforms `getPlatform()` can report.  The supported set in the source
is `{'darwin', 'linux', 'win32', 'wsl'}`; `other` covers anything else. -/
inductive Platform where
  | darwin
  | linux
  | win32
  | wsl
  | other (name : String)
deriving DecidableEq, Repr

/-- Membership in `_SUPPORTED_PLATFORMS = new Set(['darwin', 'linux', 'win32', 'wsl'])`. -/
def supportedPlatform : Platform → Bool
  | .darwin => true
  | .linux => true
  | .win32 => true
  | .wsl => true
  | .other _ => false

/-- The `userDataDir?: string|boolean` option: absent, a string path, or a
boolean. -/
inductive UserDataDirOpt where
  | unset
  | path (dir : String)
  | bool (b : Bool)
deriving DecidableEq, Repr

/-- The caller-supplied `Options` object.  `none`/`unset` models an absent
(`undefined`) field; `defaults(v, d)` from utils is `Option.getD`. -/
structure Options where
  startingUrl : Option String := none
  chromeFlags : Option (List String) := none
  prefs : List (String × String) := []
  port : Option Nat := none
  handleSIGINT : Option Bool := none
  chromePath : Option String := none
  userDataDir : UserDataDirOpt := .unset
  ignoreDefaultFlags : Option Bool := none
  connectionPollInterval : Option Nat := none
  maxConnectionRetries : Option Nat := none
deriving Repr

/-- Error kinds raised by the launcher (`InvalidUserDataDirectoryError`,
`UnsupportedPlatformError`, `ChromeNotInstalledError`, and the rejection of
`waitUntilReady` after retry exhaustion, which carries the last connection
error). -/
inductive LaunchErr where
  | invalidUserDataDir
  | unsupportedPlatform
  | chromeNotInstalled
  | connectionTimeout
deriving DecidableEq, Repr

/-- The child process handle returned by `spawn`; its `pid` field may be
`undefined`. -/
structure ChildProc where
  pid : Option Nat
deriving DecidableEq, Repr

/-- The mutable per-instance state of a `Launcher` object, one field per
TypeScript instance field (log handles are raw fd numbers as in the source;
`optsUserDataDir` keeps `this.opts.userDataDir`, which `destroyTmp` reads). -/
structure LauncherState where
  tmpDirandPidFileReady : Bool
  pidFile : Option String
  startingUrl : String
  outFile : Option Nat
  errFile : Option Nat
  chromePath : Option String
  ignoreDefaultFlags : Bool
  chromeFlags : List String
  prefs : List (String × String)
  requestedPort : Nat
  connectionPollInterval : Nat
  maxConnectionRetries : Nat
  useDefaultProfile : Bool
  userDataDir : Option String
  optsUserDataDir : UserDataDirOpt
  port : Option Nat
  pid : Option Nat
  chrome : Option ChildProc
deriving Repr

/-- The constructor `new Launcher(opts)`: field initialisation with `defaults`, then the
`typeof this.opts.userDataDir === 'boolean'` branch: `false` selects the
default profile, `true` throws `InvalidUserDataDirectoryError`. -/
def mkLauncher (opts : Options) : Except LaunchErr LauncherState := do
  let base : LauncherState :=
    { tmpDirandPidFileReady := false
      pidFile := none
      startingUrl := opts.startingUrl.getD "about:blank"
      outFile := none
      errFile := none
      chromePath := opts.chromePath
      ignoreDefaultFlags := opts.ignoreDefaultFlags.getD false
      chromeFlags := opts.chromeFlags.getD []
      prefs := opts.prefs
      requestedPort := opts.port.getD 0
      connectionPollInterval := opts.connectionPollInterval.getD 500
      maxConnectionRetries := opts.maxConnectionRetries.getD 50
      useDefaultProfile := false
      userDataDir := none
      optsUserDataDir := opts.userDataDir
      port := none
      pid := none
      chrome := none }
  match opts.userDataDir with
  | .bool b =>
      if b then throw .invalidUserDataDir
      else pure { base with useDefaultProfile := true, userDataDir := none }
  | .path dir => pure { base with useDefaultProfile := false, userDataDir := some dir }
  | .unset => pure { base with useDefaultProfile := false, userDataDir := none }

/-- One observable side effect of the launcher: connection probes, sleeps,
filesystem accesses, process spawns and kills, SIGINT-handler changes were
recorded in the order the source performs them. -/
inductive Effect where
  | probeConnect (port : Option Nat)
  | sleepMs (ms : Nat)
  | readErrLog (path : String)
  | makeTmpDir
  | openFileAppend (path : String)
  | readPrefFile (path : String)
  | writePrefFile (path : String)
  | spawnProc (execPath : String) (args : List String)
  | writePidFile (path : String) (pid : Nat)
  | killProcGroup (pid : Nat)
  | taskkill (pid : Option Nat)
  | closeFd (fd : Nat)
  | removeDirRecursive (dir : String)
  | installSigintHandler
  | removeSigintHandler
deriving DecidableEq, Repr

/-- The external collaborators (§6 of the design): platform probe, readiness
probes (`probeOk k` is the outcome of the k-th TCP connect of this launch),
chrome-finder, `makeTmpDir`, the fds `openSync` hands back, `getRandomPort`,
the spawned child's pid, the WSL path translator, and `DEFAULT_FLAGS`. -/
structure Env where
  platform : Platform
  probeOk : Nat → Bool
  installation : Option String
  tmpDir : String
  outFd : Nat
  errFd : Nat
  prefFileExists : Bool
  randomPort : Nat
  spawnPid : Option Nat
  toWin32Path : Option String → String
  defaultFlags : List String

/-- JavaScript template interpolation of a possibly-`undefined` string. -/
def jsStr : Option String → String
  | some s => s
  | none => "undefined"

/-- JavaScript template interpolation of a possibly-`undefined` number. -/
def jsNat : Option Nat → String
  | some n => toString n
  | none => "undefined"

/-- The `get flags()` accessor: default flags unless ignored, the debugging
port, the Linux sandbox flag, the profile directory unless the default
profile is used (WSL paths translated), the extra flags, and the starting
URL, in that order. -/
def launcherFlags (defaultFlags : List String) (platform : Platform)
    (toWin32Path : Option String → String) (st : LauncherState) : List String :=
  let flags := if st.ignoreDefaultFlags then [] else defaultFlags
  let flags := flags ++ ["--remote-debugging-port=" ++ jsNat st.port]
  let flags :=
    if !st.ignoreDefaultFlags && platform = .linux then
      flags ++ ["--disable-setuid-sandbox"]
    else flags
  let flags :=
    if !st.useDefaultProfile then
      flags ++ ["--user-data-dir=" ++
        (if platform = .wsl then toWin32Path st.userDataDir else jsStr st.userDataDir)]
    else flags
  flags ++ st.chromeFlags ++ [st.startingUrl]

/-- The effects of `setBrowserPrefs`: nothing when `prefs` is empty; otherwise a read (when
the `Preferences` file exists) followed by a write, or just a write.  The
JSON merge itself is not observable at the effect level, and all I/O errors
are caught and logged in the source. -/
def setBrowserPrefs (env : Env) (st : LauncherState) : List Effect :=
  if st.prefs.isEmpty then []
  else
    let preferenceFile := jsStr st.userDataDir ++ "/Preferences"
    if env.prefFileExists then
      [Effect.readPrefFile preferenceFile, Effect.writePrefFile preferenceFile]
    else
      [Effect.writePrefFile preferenceFile]

/-- The method `prepare()`: platform validation, `this.userDataDir = this.userDataDir ||
this.makeTmpDir()` (the empty string is falsy in JavaScript), the two
append-mode log files, preference merging, and the pid-file path. -/
def prepare (env : Env) (st : LauncherState) :
    Except LaunchErr (LauncherState × List Effect) := do
  if !supportedPlatform env.platform then throw .unsupportedPlatform
  let (udd, effs1) :=
    match st.userDataDir with
    | some d => if d = "" then (env.tmpDir, [Effect.makeTmpDir]) else (d, ([] : List Effect))
    | none => (env.tmpDir, [Effect.makeTmpDir])
  let st := { st with userDataDir := some udd }
  let effs2 := [Effect.openFileAppend (udd ++ "/chrome-out.log"),
                Effect.openFileAppend (udd ++ "/chrome-err.log")]
  let st := { st with outFile := some env.outFd, errFile := some env.errFd }
  let effs3 := setBrowserPrefs env st
  let st := { st with pidFile := some (udd ++ "/chrome.pid"),
                      tmpDirandPidFileReady := true }
  pure (st, effs1 ++ effs2 ++ effs3)

/-- The body of `waitUntilReady`'s `poll` closure.  `retries` is the counter
the closure increments; `idx` numbers the probes so `Env.probeOk` can answer
each attempt; `fuel` bounds the recursion (the loop itself stops once
`retries` exceeds `maxRetries`, so `maxRetries + 1` fuel is never exhausted).
Returns (resolved?, next probe index, effects). -/
def pollLoop (probeOk : Nat → Bool) (port : Option Nat) (maxRetries interval : Nat)
    (errLogPath : String) (idx retries : Nat) : Nat → Bool × Nat × List Effect
  | 0 => (false, idx, [])
  | fuel + 1 =>
    let retries1 := retries + 1
    if probeOk idx then (true, idx + 1, [Effect.probeConnect port])
    else if maxRetries < retries1 then
      (false, idx + 1, [Effect.probeConnect port, Effect.readErrLog errLogPath])
    else
      let rest := pollLoop probeOk port maxRetries interval errLogPath (idx + 1) retries1 fuel
      (rest.1, rest.2.1, Effect.probeConnect port :: Effect.sleepMs interval :: rest.2.2)

/-- The method `waitUntilReady()`: run `poll` starting from `retries = 0`. -/
def waitUntilReady (probeOk : Nat → Bool) (port : Option Nat)
    (maxRetries interval : Nat) (errLogPath : String) (idx : Nat) :
    Bool × Nat × List Effect :=
  pollLoop probeOk port maxRetries interval errLogPath idx 0 (maxRetries + 1)

/-- The method `spawnProcess(execPath)`: reuse an attached process if present, otherwise
allocate the deferred port, build the flags, spawn detached, and record the
pid file when the child has a (truthy) pid; then `waitUntilReady`, whose
exhaustion rejects the launch. -/
def spawnProcess (env : Env) (st : LauncherState) (execPath : String) (idx : Nat) :
    Except LaunchErr (Option Nat) × LauncherState × List Effect :=
  let inner : Option Nat × LauncherState × List Effect :=
    match st.chrome with
    | some c => (c.pid, st, [])
    | none =>
      let st := if st.requestedPort = 0 then { st with port := some env.randomPort } else st
      let args := launcherFlags env.defaultFlags env.platform env.toWin32Path st
      let chrome : ChildProc := { pid := env.spawnPid }
      let st := { st with chrome := some chrome }
      let effsPid :=
        match env.spawnPid with
        | some p => if p ≠ 0 then [Effect.writePidFile (jsStr st.pidFile) p] else []
        | none => []
      (chrome.pid, st, Effect.spawnProc execPath args :: effsPid)
  let (pid, st1, effs) := inner
  let wait := waitUntilReady env.probeOk st1.port st1.maxConnectionRetries
      st1.connectionPollInterval (jsStr st1.userDataDir ++ "/chrome-err.log") idx
  if wait.1 then (.ok pid, st1, effs ++ wait.2.2)
  else (.error .connectionTimeout, st1, effs ++ wait.2.2)

/-- The tail of `Launcher.launch` after the port check: resolve the
executable (chrome-finder unless `chromePath` was given), `prepare()` under
its idempotency guard, then `spawnProcess` and record `this.pid`. -/
def launchRest (env : Env) (st : LauncherState) (idx : Nat) (effs : List Effect) :
    Except LaunchErr LauncherState × List Effect :=
  let resolved : Except LaunchErr (LauncherState × String) :=
    match st.chromePath with
    | none =>
      match env.installation with
      | none => .error .chromeNotInstalled
      | some inst => .ok ({ st with chromePath := some inst }, inst)
    | some p => .ok (st, p)
  match resolved with
  | .error e => (.error e, effs)
  | .ok (st1, execPath) =>
    match (if st1.tmpDirandPidFileReady then .ok (st1, []) else prepare env st1) with
    | .error e => (.error e, effs)
    | .ok (st2, effs1) =>
      let (res, st3, effs2) := spawnProcess env st2 execPath idx
      match res with
      | .error e => (.error e, effs ++ effs1 ++ effs2)
      | .ok pid => (.ok { st3 with pid := pid }, effs ++ effs1 ++ effs2)

/-- The method `Launcher.launch()`: when a non-zero port was requested, set `this.port`
and try `isDebuggerReady()` first — success returns immediately; failure
falls through to the normal launch path. -/
def launcherLaunch (env : Env) (st : LauncherState) :
    Except LaunchErr LauncherState × List Effect :=
  if st.requestedPort ≠ 0 then
    let st1 := { st with port := some st.requestedPort }
    if env.probeOk 0 then
      (.ok st1, [Effect.probeConnect st1.port])
    else
      launchRest env st1 1 [Effect.probeConnect st1.port]
  else
    launchRest env st 0 []

/-- The method `destroyTmp()`: resolve immediately (closing nothing) unless this
launcher owns the directory (`this.userDataDir` set and `this.opts.userDataDir`
undefined); otherwise close both log fds if open and remove the directory
tree recursively. -/
def destroyTmp (st : LauncherState) : LauncherState × List Effect :=
  if st.userDataDir.isNone ∨ st.optsUserDataDir ≠ .unset then (st, [])
  else
    let (st1, effsOut) :=
      match st.outFile with
      | some fd => ({ st with outFile := none }, [Effect.closeFd fd])
      | none => (st, ([] : List Effect))
    let (st2, effsErr) :=
      match st1.errFile with
      | some fd => ({ st1 with errFile := none }, [Effect.closeFd fd])
      | none => (st1, ([] : List Effect))
    (st2, effsOut ++ effsErr ++ [Effect.removeDirRecursive (jsStr st2.userDataDir)])

/-- The method `Launcher.kill()`: with no attached process, resolve silently (no
cleanup).  Otherwise issue the platform-specific termination (`taskkill` on
win32, `process.kill(-pid)` elsewhere when the pid is truthy); an OS error
rejects with `Chrome could not be killed` and performs no cleanup; on
success the `close` handler deletes `this.chrome` and runs `destroyTmp`.
`killOk` is the environment's answer to whether the OS call threw. -/
def launcherKill (env : Env) (killOk : Bool) (st : LauncherState) :
    Except String (LauncherState × List Effect) :=
  match st.chrome with
  | none => .ok (st, [])
  | some c =>
    let killEffs : List Effect :=
      if env.platform = .win32 then [Effect.taskkill c.pid]
      else
        match c.pid with
        | some p => if p ≠ 0 then [Effect.killProcGroup p] else []
        | none => []
    if killOk then
      let st1 := { st with chrome := none }
      let (st2, effs) := destroyTmp st1
      .ok (st2, killEffs ++ effs)
    else .error "Chrome could not be killed"

/-- The object the `launch()` facade returns: `{pid: instance.pid!, port:
instance.port!, kill, process: instance.chrome!}`.  The non-null assertions
are erased at runtime, so the fields keep their possibly-absent values. -/
structure Handle where
  pid : Option Nat
  port : Option Nat
  chromeProc : Option ChildProc
deriving DecidableEq, Repr

/-- The module-level `launch(opts)` facade: default `handleSIGINT` to true,
construct the Launcher (its validation throws before anything else happens),
install the SIGINT handler when this is the first live instance and handling
was requested, run the instance's launch, and build the handle.
`instancesSize` is `instances.size` before this call. -/
def facadeLaunch (env : Env) (instancesSize : Nat) (opts : Options) :
    Except LaunchErr Handle × List Effect :=
  let handleSIGINT := opts.handleSIGINT.getD true
  match mkLauncher opts with
  | .error e => (.error e, [])
  | .ok st =>
    let effs0 :=
      if handleSIGINT && instancesSize = 0 then [Effect.installSigintHandler] else []
    match launcherLaunch env st with
    | (.error e, effs) => (.error e, effs0 ++ effs)
    | (.ok st1, effs) =>
      (.ok { pid := st1.pid, port := st1.port, chromeProc := st1.chrome }, effs0 ++ effs)

/-! ## The module-level instance registry

`const instances = new Set<Launcher>()` plus the SIGINT listener
bookkeeping, modelled as a list in insertion order together with the number
of copies of `sigintListener` currently attached to the process's SIGINT
listener list: `process.on` appends one copy unconditionally, and
`process.removeListener` removes at most one copy (a no-op when none is
attached), so a count — not a boolean — is the faithful state.  Kill
outcomes are supplied externally: `none` means `instance.kill()` resolved,
`some msg` that it rejected with `msg`. -/

/-- Identifier standing for one Launcher object in the registry model. -/
abbrev InstId := Nat

/-- The process-wide registry state: the live-instance set (insertion
order, no duplicates) and how many copies of `sigintListener` are attached
to the process's SIGINT listener list. -/
structure Registry where
  insts : List InstId
  sigintListeners : Nat
deriving DecidableEq, Repr

/-- The registry mutations performed by the `launch(opts)` facade: when
handling is requested and `instances.size === 0`, `process.on` appends one
more copy of the listener (even if a stale copy is still attached); then
`instances.add(instance)`. -/
def Registry.launchOp (r : Registry) (i : InstId) (handleSIGINT : Bool) : Registry :=
  let listeners' :=
    if handleSIGINT && r.insts.isEmpty then r.sigintListeners + 1 else r.sigintListeners
  let insts' := if i ∈ r.insts then r.insts else r.insts ++ [i]
  { insts := insts', sigintListeners := listeners' }

/-- The `kill` closure the facade returns: `instances.delete(instance)`,
then `process.removeListener` when the set became empty — removing at most
one attached copy of the listener (Nat subtraction: a no-op at zero) — and
only then `instance.kill()`, whose outcome (`killResult`) is returned
unchanged. -/
def Registry.handleKillOp (r : Registry) (i : InstId) (killResult : Option String) :
    Registry × Option String :=
  let insts' := r.insts.erase i
  let listeners' := if insts'.isEmpty then r.sigintListeners - 1 else r.sigintListeners
  ({ insts := insts', sigintListeners := listeners' }, killResult)

/-- The loop body of `killAll()`: for each instance in iteration order try
`instance.kill()`; delete it only when kill did not error, otherwise keep it
and record the error.  Returns (instances still registered, errors, the
instances on which a kill was attempted). -/
def killAllLoop (killResult : InstId → Option String) :
    List InstId → List InstId × List String × List InstId
  | [] => ([], [], [])
  | i :: rest =>
    let (rem, errs, att) := killAllLoop killResult rest
    match killResult i with
    | none => (rem, errs, i :: att)
    | some e => (i :: rem, e :: errs, i :: att)

/-- The function `killAll()`: run the loop over the live set and return the collected
errors; the SIGINT listener is not touched. -/
def Registry.killAllOp (r : Registry) (killResult : InstId → Option String) :
    Registry × List String :=
  let (rem, errs, _) := killAllLoop killResult r.insts
  ({ insts := rem, sigintListeners := r.sigintListeners }, errs)

/-- One registry-affecting operation, for stating properties over arbitrary
sequences of launches, handle-kills and killAlls. -/
inductive RegOp where
  | launch (i : InstId) (handleSIGINT : Bool)
  | handleKill (i : InstId) (killResult : Option String)
  | killAll (killResult : InstId → Option String)

/-- The registry transition for one operation. -/
def Registry.step (r : Registry) : RegOp → Registry
  | .launch i h => r.launchOp i h
  | .handleKill i k => (r.handleKillOp i k).1
  | .killAll f => (r.killAllOp f).1

/-- A concrete environment used by closed witnesses: darwin host, probes
that always succeed, a found installation, and ordinary fds and pids. -/
def sampleEnv : Env :=
  { platform := .darwin
    probeOk := fun _ => true
    installation := some "/Applications/Chrome"
    tmpDir := "/tmp/lighthouse.123"
    outFd := 3
    errFd := 4
    prefFileExists := false
    randomPort := 41000
    spawnPid := some 1234
    toWin32Path := fun s => jsStr s
    defaultFlags := ["--disable-features=Translate"] }

/-- A launcher state as reached by a full launch that generated its own
temp directory (`userDataDir` option absent): logs open inside the temp
directory, process attached. -/
def ownedDirState : LauncherState :=
  { tmpDirandPidFileReady := true
    pidFile := some "/tmp/lighthouse.123/chrome.pid"
    startingUrl := "about:blank"
    outFile := some 3
    errFile := some 4
    chromePath := some "/Applications/Chrome"
    ignoreDefaultFlags := false
    chromeFlags := []
    prefs := []
    requestedPort := 0
    connectionPollInterval := 500
    maxConnectionRetries := 50
    useDefaultProfile := false
    userDataDir := some "/tmp/lighthouse.123"
    optsUserDataDir := .unset
    port := some 41000
    pid := some 1234
    chrome := some { pid := some 1234 } }

/-- A launcher state as reached by a full launch with a caller-supplied
user-data directory (`userDataDir: "/home/user/profile"`): logs open inside
the caller's directory, process attached. -/
def callerDirState : LauncherState :=
  { tmpDirandPidFileReady := true
    pidFile := some "/home/user/profile/chrome.pid"
    startingUrl := "about:blank"
    outFile := some 3
    errFile := some 4
    chromePath := some "/Applications/Chrome"
    ignoreDefaultFlags := false
    chromeFlags := []
    prefs := []
    requestedPort := 0
    connectionPollInterval := 500
    maxConnectionRetries := 50
    useDefaultProfile := false
    userDataDir := some "/home/user/profile"
    optsUserDataDir := .path "/home/user/profile"
    port := some 41000
    pid := some 1234
    chrome := some { pid := some 1234 } }

/-! ## Helper lemmas -/

/-- The loop `killAllLoop` visits every instance, keeps exactly those whose kill
errored, and collects exactly the errors, in iteration order. -/
theorem killAllLoop_eq (f : InstId → Option String) (l : List InstId) :
    killAllLoop f l =
      (l.filter (fun i => (f i).isSome), l.filterMap f, l) := by
  induction l with
  | nil => rfl
  | cons i rest ih =>
    rw [killAllLoop, ih]
    cases hf : f i <;> simp [hf, List.filter_cons, List.filterMap_cons]

/-- An element does not survive erasing itself from a duplicate-free list. -/
theorem nodup_not_mem_erase {l : List InstId} {a : InstId} (h : l.Nodup) :
    a ∉ l.erase a := by
  induction l with
  | nil => simp
  | cons b t ih =>
    rw [List.erase_cons]
    rcases List.nodup_cons.mp h with ⟨hbt, hth⟩
    by_cases hba : b = a
    · subst hba
      simpa using hbt
    · simp only [beq_iff_eq, hba, if_false, List.mem_cons]
      rintro (rfl | hmem)
      · exact hba rfl
      · exact ih hth hmem

/-! ## Claim theorems -/

/-- C1 (counterexample): launch one instance with interrupt handling
requested (one copy of `sigintListener` attached), then `killAll` whose
kill succeeds: the live set transitions back to empty, yet the listener
stays attached — `killAll` never calls `process.removeListener`.  From that
reachable state, relaunching attaches a second copy (`process.on` appends
unconditionally when the set is empty), and the subsequent handle-kill,
though it empties the set, removes only one copy: the handler remains
attached even after an emptying handle-kill. -/
theorem sigint_survives_emptying_killAll :
    ((((Registry.mk [] 0).launchOp 0 true).killAllOp (fun _ => none)).1.insts = []
      ∧ (((Registry.mk [] 0).launchOp 0 true).killAllOp (fun _ => none)).1.sigintListeners
          = 1)
    ∧ (((((Registry.mk [] 0).launchOp 0 true).killAllOp
          (fun _ => none)).1.launchOp 1 true).handleKillOp 1 none).1.insts = []
    ∧ (((((Registry.mk [] 0).launchOp 0 true).killAllOp
          (fun _ => none)).1.launchOp 1 true).handleKillOp 1 none).1.sigintListeners = 1 := by
  exact ⟨⟨rfl, rfl⟩, rfl, rfl⟩

/-- C1 (amended): across every registry operation, one copy of the SIGINT
listener is attached exactly when a launch with interrupt handling
requested finds the live set empty (even if a stale copy is still
attached), and at most one attached copy is removed exactly when a
handle-kill leaves the set empty (`process.removeListener` removes a single
occurrence and is a no-op when none is attached); `killAll` never attaches
or detaches a copy, so the set becoming empty does not imply the handler is
gone. -/
theorem sigint_listener_step_characterization :
    ∀ (r : Registry) (op : RegOp),
      ((r.step op).sigintListeners =
        match op with
        | .launch _ h =>
            if h && r.insts.isEmpty then r.sigintListeners + 1 else r.sigintListeners
        | .handleKill i _ =>
            if (r.insts.erase i).isEmpty then r.sigintListeners - 1 else r.sigintListeners
        | .killAll _ => r.sigintListeners)
      ∧ ((r.step op).sigintListeners ≠ r.sigintListeners →
          (∃ i h, op = RegOp.launch i h
            ∧ (h && r.insts.isEmpty) = true
            ∧ (r.step op).sigintListeners = r.sigintListeners + 1)
          ∨ (∃ i k, op = RegOp.handleKill i k
            ∧ (r.insts.erase i).isEmpty = true
            ∧ (r.step op).sigintListeners = r.sigintListeners - 1)) := by
  intro r op
  cases op with
  | launch i h =>
    refine ⟨rfl, ?_⟩
    intro hne
    by_cases hc : (h && r.insts.isEmpty) = true
    · exact Or.inl ⟨i, h, rfl, hc, by simp [Registry.step, Registry.launchOp, hc]⟩
    · exact absurd (by simp [Registry.step, Registry.launchOp, hc]) hne
  | handleKill i k =>
    refine ⟨rfl, ?_⟩
    intro hne
    by_cases hc : (r.insts.erase i).isEmpty = true
    · exact Or.inr ⟨i, k, rfl, hc, by simp [Registry.step, Registry.handleKillOp, hc]⟩
    · exact absurd (by simp [Registry.step, Registry.handleKillOp, hc]) hne
  | killAll f =>
    exact ⟨rfl, fun hne => absurd rfl hne⟩

/-- C1 amended (witness): the detachment clause evaluated where a stale
copy exists: two copies attached, an emptying handle-kill changes the
count, and the characterization forces it to drop by exactly one. -/
theorem sigint_listener_step_characterization_witness :
    (∃ i h, RegOp.handleKill 0 none = RegOp.launch i h
      ∧ (h && (Registry.mk [] 2).insts.isEmpty) = true
      ∧ ((Registry.mk [] 2).step (RegOp.handleKill 0 none)).sigintListeners
          = (Registry.mk [] 2).sigintListeners + 1)
    ∨ (∃ i k, RegOp.handleKill 0 none = RegOp.handleKill i k
      ∧ ((Registry.mk [] 2).insts.erase i).isEmpty = true
      ∧ ((Registry.mk [] 2).step (RegOp.handleKill 0 none)).sigintListeners
          = (Registry.mk [] 2).sigintListeners - 1) :=
  (sigint_listener_step_characterization (Registry.mk [] 2) (RegOp.handleKill 0 none)).2
    (by decide)

/-- C2 (counterexample): launch one instance, then kill it through the
handle returned by `launch`, with the kill rejecting.  The instance is
nevertheless gone from the registry, because the handle's `kill` closure
deletes the instance before invoking `instance.kill()`. -/
theorem handle_kill_failure_still_deregisters :
    ((((Registry.mk [] 0).launchOp 0 true).handleKillOp 0 (some "kill failed")).1.insts
        = [])
    ∧ ((((Registry.mk [] 0).launchOp 0 true).handleKillOp 0 (some "kill failed")).2
        = some "kill failed") := by
  exact ⟨rfl, rfl⟩

/-- C2 (amended): launch registers the instance; `killAll` removes exactly
the instances whose kill succeeded (so a killAll-failed instance is retried
later); but a kill issued through the handle returned by `launch` removes
the instance from the registry unconditionally, before the kill outcome is
known, so a failed handle-kill does not leave the instance registered. -/
theorem registry_membership_spec :
    (∀ (r : Registry) (i : InstId) (h : Bool), i ∈ (r.launchOp i h).insts)
    ∧ (∀ (r : Registry) (i : InstId) (k : Option String),
        r.insts.Nodup → i ∉ ((r.handleKillOp i k).1).insts)
    ∧ (∀ (r : Registry) (f : InstId → Option String),
        ((r.killAllOp f).1).insts = r.insts.filter (fun i => (f i).isSome)) := by
  refine ⟨?_, ?_, ?_⟩
  · intro r i h
    simp only [Registry.launchOp]
    by_cases hm : i ∈ r.insts <;> simp [hm]
  · intro r i k hnd
    simpa only [Registry.handleKillOp] using nodup_not_mem_erase hnd
  · intro r f
    simp [Registry.killAllOp, killAllLoop_eq]

/-- C2 (witness): a concrete duplicate-free registry on which the
handle-kill clause of the membership theorem evaluates. -/
theorem registry_membership_spec_witness :
    ([0, 1] : List InstId).Nodup
    ∧ 0 ∉ (((Registry.mk [0, 1] 1).handleKillOp 0 (some "boom")).1).insts :=
  ⟨by decide, registry_membership_spec.2.1 (Registry.mk [0, 1] 1) 0 (some "boom") (by decide)⟩

/-- C4: `killAll` attempts a kill on every registered instance (third
component of the loop), keeps exactly the instances whose kill errored,
returns exactly the errors encountered in order, and on an empty registry
returns an empty error list leaving the registry untouched.  It is a total
function: every kill outcome, including failures, yields a normal return. -/
theorem killAll_spec :
    ∀ (r : Registry) (f : InstId → Option String),
      (killAllLoop f r.insts).2.2 = r.insts
      ∧ ((r.killAllOp f).1).insts = r.insts.filter (fun i => (f i).isSome)
      ∧ ((r.killAllOp f).1).sigintListeners = r.sigintListeners
      ∧ (r.killAllOp f).2 = r.insts.filterMap f
      ∧ (r.insts = [] → r.killAllOp f = (r, [])) := by
  intro r f
  refine ⟨?_, ?_, ?_, ?_, ?_⟩
  · simp [killAllLoop_eq]
  · simp [Registry.killAllOp, killAllLoop_eq]
  · simp [Registry.killAllOp, killAllLoop_eq]
  · simp [Registry.killAllOp, killAllLoop_eq]
  · intro hempty
    cases r with
    | mk insts sig =>
      simp only at hempty
      subst hempty
      rfl

/-- C4 (witness): `killAll` on an empty registry, with a kill oracle that
would fail every kill, still returns no errors and performs no action. -/
theorem killAll_spec_witness :
    (Registry.mk [] 1).killAllOp (fun _ => some "e") = (Registry.mk [] 1, []) :=
  (killAll_spec (Registry.mk [] 1) (fun _ => some "e")).2.2.2.2 rfl

/-- When every probe fails, `pollLoop` runs until `retries` exceeds the
maximum: starting with `retries + fuel = maxRetries + 1` it performs `fuel`
probes (one per remaining retry budget), a sleep of the poll interval
between consecutive probes, reads the error log, and reports failure.  The
returned index advances by exactly the number of probes performed. -/
theorem pollLoop_allFail (probeOk : Nat → Bool) (hprobe : ∀ k, probeOk k = false)
    (port : Option Nat) (maxR interval : Nat) (errLog : String) :
    ∀ (fuel idx retries : Nat), retries + fuel = maxR + 1 → 1 ≤ fuel →
      pollLoop probeOk port maxR interval errLog idx retries fuel =
        (false, idx + fuel,
         (List.replicate (fuel - 1) [Effect.probeConnect port, Effect.sleepMs interval]).flatten
           ++ [Effect.probeConnect port, Effect.readErrLog errLog]) := by
  intro fuel
  induction fuel with
  | zero =>
    intro idx retries _ hpos
    omega
  | succ n ih =>
    intro idx retries hsum _
    rw [pollLoop, hprobe idx]
    cases n with
    | zero =>
      have hgt : maxR < retries + 1 := by omega
      simp [hgt]
    | succ m =>
      have hle : ¬ maxR < retries + 1 := by omega
      rw [if_neg (by simp), if_neg hle, ih (idx + 1) (retries + 1) (by omega) (by omega)]
      have hidx : idx + 1 + (m + 1) = idx + (m + 1 + 1) := by omega
      simp only [Nat.succ_sub_one, List.replicate_succ, List.flatten_cons, hidx,
        List.append_assoc, List.cons_append, List.nil_append]

/-- C3: with `maxConnectionRetries = n` and a port on which every readiness
probe fails, `waitUntilReady` performs exactly `n + 1` probe attempts (the
probe index advances from 0 to `n + 1`), with a `connectionPollInterval`
sleep between consecutive probes, then reads the error log and rejects
(`false` here; `spawnProcess` turns it into the `connectionTimeout`
rejection of the launch). -/
theorem waitUntilReady_retry_exhaustion :
    ∀ (probeOk : Nat → Bool), (∀ k, probeOk k = false) →
    ∀ (port : Option Nat) (n interval : Nat) (errLog : String),
      waitUntilReady probeOk port n interval errLog 0 =
        (false, n + 1,
         (List.replicate n [Effect.probeConnect port, Effect.sleepMs interval]).flatten
           ++ [Effect.probeConnect port, Effect.readErrLog errLog]) := by
  intro probeOk h port n interval errLog
  have := pollLoop_allFail probeOk h port n interval errLog (n + 1) 0 0 (by omega) (by omega)
  simpa using this

/-- C3 (witness): `maxConnectionRetries = 2` gives exactly 3 probe attempts,
separated by two 500 ms sleeps, then the error-log read and the rejection. -/
theorem waitUntilReady_retry_exhaustion_witness :
    waitUntilReady (fun _ => false) (some 9222) 2 500 "/tmp/l/chrome-err.log" 0 =
      (false, 3,
       [Effect.probeConnect (some 9222), Effect.sleepMs 500,
        Effect.probeConnect (some 9222), Effect.sleepMs 500,
        Effect.probeConnect (some 9222), Effect.readErrLog "/tmp/l/chrome-err.log"]) := by
  have := waitUntilReady_retry_exhaustion (fun _ => false) (fun _ => rfl) (some 9222) 2 500
    "/tmp/l/chrome-err.log"
  simpa using this

/-- When a non-zero port is requested and the very first readiness probe
succeeds, the facade returns after that single probe: the handle carries the
requested port but no pid and no process, and the only effects are the
optional SIGINT-handler installation and the one probe. -/
theorem facadeLaunch_reuse (env : Env) (sz : Nat) (opts : Options) (p : Nat)
    (hport : opts.port = some p) (hp : p ≠ 0)
    (hud : opts.userDataDir ≠ .bool true) (hprobe : env.probeOk 0 = true) :
    facadeLaunch env sz opts =
      (.ok { pid := none, port := some p, chromeProc := none },
       (if opts.handleSIGINT.getD true && sz = 0 then [Effect.installSigintHandler] else [])
         ++ [Effect.probeConnect (some p)]) := by
  cases hud2 : opts.userDataDir with
  | bool b =>
    cases b with
    | true => exact absurd hud2 hud
    | false =>
      simp [facadeLaunch, mkLauncher, hud2, launcherLaunch, hport, hp, hprobe,
        pure, Except.pure]
  | path d =>
    simp [facadeLaunch, mkLauncher, hud2, launcherLaunch, hport, hp, hprobe,
      pure, Except.pure]
  | unset =>
    simp [facadeLaunch, mkLauncher, hud2, launcherLaunch, hport, hp, hprobe,
      pure, Except.pure]

/-- C5: a launch with a non-zero requested port on which a listener already
answers completes successfully, spawns no process, creates no temp
directory, and returns the requested port in the handle. -/
theorem port_precedence_reuse :
    ∀ (env : Env) (sz : Nat) (opts : Options) (p : Nat),
      opts.port = some p → p ≠ 0 → opts.userDataDir ≠ .bool true →
      env.probeOk 0 = true →
      (facadeLaunch env sz opts).1 = .ok { pid := none, port := some p, chromeProc := none }
      ∧ Effect.makeTmpDir ∉ (facadeLaunch env sz opts).2
      ∧ ∀ (path : String) (args : List String),
          Effect.spawnProc path args ∉ (facadeLaunch env sz opts).2 := by
  intro env sz opts p hport hp hud hprobe
  rw [facadeLaunch_reuse env sz opts p hport hp hud hprobe]
  refine ⟨rfl, ?_, ?_⟩
  · by_cases hc : opts.handleSIGINT.getD true && sz = 0 <;> simp [hc]
  · intro path args
    by_cases hc : opts.handleSIGINT.getD true && sz = 0 <;> simp [hc]

/-- C5 (witness): requesting port 9222 with a listener already answering. -/
theorem port_precedence_reuse_witness :
    (facadeLaunch sampleEnv 0 { port := some 9222 }).1
        = .ok { pid := none, port := some 9222, chromeProc := none }
      ∧ Effect.makeTmpDir ∉ (facadeLaunch sampleEnv 0 { port := some 9222 }).2
      ∧ ∀ (path : String) (args : List String),
          Effect.spawnProc path args ∉ (facadeLaunch sampleEnv 0 { port := some 9222 }).2 :=
  port_precedence_reuse sampleEnv 0 { port := some 9222 } 9222 rfl (by decide) (by decide) rfl

/-- C10: on the reuse path (non-zero requested port, first probe succeeds)
the handle the facade returns has no pid and no raw process reference —
`instance.pid!` and `instance.chrome!` are both `undefined`, despite the
`LaunchedChrome` type declaring them present. -/
theorem reuse_handle_has_no_process :
    ∀ (env : Env) (sz : Nat) (opts : Options) (p : Nat),
      opts.port = some p → p ≠ 0 → opts.userDataDir ≠ .bool true →
      env.probeOk 0 = true →
      ∃ h : Handle,
        (facadeLaunch env sz opts).1 = .ok h ∧ h.pid = none ∧ h.chromeProc = none := by
  intro env sz opts p hport hp hud hprobe
  rw [facadeLaunch_reuse env sz opts p hport hp hud hprobe]
  exact ⟨{ pid := none, port := some p, chromeProc := none }, rfl, rfl, rfl⟩

/-- C10 (witness): the handle for a reused instance on port 9222 has
neither pid nor process. -/
theorem reuse_handle_has_no_process_witness :
    ∃ h : Handle,
      (facadeLaunch sampleEnv 1 { port := some 9222, handleSIGINT := some false }).1 = .ok h
      ∧ h.pid = none ∧ h.chromeProc = none :=
  reuse_handle_has_no_process sampleEnv 1 { port := some 9222, handleSIGINT := some false }
    9222 rfl (by decide) (by decide) rfl

/-- C9: `userDataDir: true` makes the constructor throw
`InvalidUserDataDirectoryError` before the registry, the SIGINT handler, or
any side effect is touched: the facade rejects with the validation error and
an empty effect trace — no directory created, no file opened, no process
spawned. -/
theorem invalid_userDataDir_fails_fast :
    ∀ (env : Env) (sz : Nat) (opts : Options),
      opts.userDataDir = .bool true →
      facadeLaunch env sz opts = (.error .invalidUserDataDir, []) := by
  intro env sz opts h
  simp [facadeLaunch, mkLauncher, h]

/-- C9 (witness): the concrete configuration `{userDataDir: true}`. -/
theorem invalid_userDataDir_fails_fast_witness :
    facadeLaunch sampleEnv 0 { userDataDir := .bool true }
      = (.error .invalidUserDataDir, []) :=
  invalid_userDataDir_fails_fast sampleEnv 0 { userDataDir := .bool true } rfl

/-- C6: the built flag list is, in order: the default set unless ignored,
the debugging-port flag, the Linux sandbox flag exactly when on Linux with
defaults enabled, the user-data-dir flag unless the default profile was
requested, the extra flags, and the starting URL last.  In particular, for
`{ignoreDefaultFlags: false, port: 9222, chromeFlags: ["--foo"],
startingUrl: "https://example.com"}` with a generated temp dir the list on
a non-Linux, non-WSL platform is `[...D, "--remote-debugging-port=9222",
"--user-data-dir=<tmp>", "--foo", "https://example.com"]`, and on Linux the
sandbox flag is inserted right after the port flag. -/
theorem flag_composition :
    (∀ (D : List String) (platform : Platform) (toW : Option String → String)
        (st : LauncherState),
      launcherFlags D platform toW st =
        (if st.ignoreDefaultFlags then [] else D)
        ++ ["--remote-debugging-port=" ++ jsNat st.port]
        ++ (if !st.ignoreDefaultFlags && platform = .linux
            then ["--disable-setuid-sandbox"] else [])
        ++ (if !st.useDefaultProfile
            then ["--user-data-dir="
                  ++ (if platform = .wsl then toW st.userDataDir else jsStr st.userDataDir)]
            else [])
        ++ st.chromeFlags ++ [st.startingUrl])
    ∧ (∀ (D : List String) (toW : Option String → String) (tmp : String)
        (st0 : LauncherState),
        mkLauncher { port := some 9222, chromeFlags := some ["--foo"],
                     startingUrl := some "https://example.com" } = .ok st0 →
        launcherFlags D .darwin toW { st0 with port := some 9222, userDataDir := some tmp }
          = D ++ ["--remote-debugging-port=9222", "--user-data-dir=" ++ tmp,
                  "--foo", "https://example.com"]
        ∧ launcherFlags D .linux toW { st0 with port := some 9222, userDataDir := some tmp }
          = D ++ ["--remote-debugging-port=9222", "--disable-setuid-sandbox",
                  "--user-data-dir=" ++ tmp, "--foo", "https://example.com"]) := by
  constructor
  · intro D platform toW st
    simp only [launcherFlags]
    by_cases hig : st.ignoreDefaultFlags <;>
      by_cases hl : platform = Platform.linux <;>
        by_cases hup : st.useDefaultProfile <;>
          simp [hig, hl, hup, List.append_assoc]
  · intro D toW tmp st0 h
    simp only [mkLauncher, pure, Except.pure, Except.ok.injEq] at h
    subst h
    constructor <;> (simp [launcherFlags, jsStr, jsNat, List.append_assoc]; rfl)

/-- C6 (witness): the concrete configuration of the claim evaluated with a
one-flag default set and temp dir `/tmp/lighthouse.123`. -/
theorem flag_composition_witness :
    mkLauncher { port := some 9222, chromeFlags := some ["--foo"],
                 startingUrl := some "https://example.com" }
      = .ok { tmpDirandPidFileReady := false, pidFile := none,
              startingUrl := "https://example.com", outFile := none, errFile := none,
              chromePath := none, ignoreDefaultFlags := false, chromeFlags := ["--foo"],
              prefs := [], requestedPort := 9222, connectionPollInterval := 500,
              maxConnectionRetries := 50, useDefaultProfile := false, userDataDir := none,
              optsUserDataDir := .unset, port := none, pid := none, chrome := none }
    ∧ launcherFlags ["--disable-features=Translate"] .darwin jsStr
        { tmpDirandPidFileReady := false, pidFile := none,
          startingUrl := "https://example.com", outFile := none, errFile := none,
          chromePath := none, ignoreDefaultFlags := false, chromeFlags := ["--foo"],
          prefs := [], requestedPort := 9222, connectionPollInterval := 500,
          maxConnectionRetries := 50, useDefaultProfile := false,
          userDataDir := some "/tmp/lighthouse.123",
          optsUserDataDir := .unset, port := some 9222, pid := none, chrome := none }
      = ["--disable-features=Translate"]
        ++ ["--remote-debugging-port=9222", "--user-data-dir=" ++ "/tmp/lighthouse.123",
            "--foo", "https://example.com"] :=
  ⟨rfl,
   ((flag_composition.2 ["--disable-features=Translate"] jsStr "/tmp/lighthouse.123"
      { tmpDirandPidFileReady := false, pidFile := none,
        startingUrl := "https://example.com", outFile := none, errFile := none,
        chromePath := none, ignoreDefaultFlags := false, chromeFlags := ["--foo"],
        prefs := [], requestedPort := 9222, connectionPollInterval := 500,
        maxConnectionRetries := 50, useDefaultProfile := false, userDataDir := none,
        optsUserDataDir := .unset, port := none, pid := none, chrome := none } rfl).1)⟩

/-- Running `destroyTmp` on a launcher that does not own its directory (none
recorded, or the `userDataDir` option was supplied): resolve immediately,
no close, no removal. -/
theorem destroyTmp_not_owned (st : LauncherState)
    (h : st.userDataDir.isNone ∨ st.optsUserDataDir ≠ .unset) :
    destroyTmp st = (st, []) := by
  simp only [destroyTmp]
  rw [if_pos h]

/-- Running `destroyTmp` on a launcher that owns its directory: both log fds, if
open, are closed and cleared, and exactly the recorded directory is removed
recursively. -/
theorem destroyTmp_owned_spec (st : LauncherState) (d : String)
    (hd : st.userDataDir = some d) (hopt : st.optsUserDataDir = .unset) :
    (destroyTmp st).1.outFile = none ∧ (destroyTmp st).1.errFile = none
    ∧ (destroyTmp st).1.userDataDir = some d
    ∧ (∀ fd, st.outFile = some fd → Effect.closeFd fd ∈ (destroyTmp st).2)
    ∧ (∀ fd, st.errFile = some fd → Effect.closeFd fd ∈ (destroyTmp st).2)
    ∧ Effect.removeDirRecursive d ∈ (destroyTmp st).2
    ∧ (∀ x, Effect.removeDirRecursive x ∈ (destroyTmp st).2 → x = d)
    ∧ (∀ e ∈ (destroyTmp st).2,
        (∃ fd, e = Effect.closeFd fd) ∨ e = Effect.removeDirRecursive d) := by
  cases ho : st.outFile <;> cases he : st.errFile <;>
    simp [destroyTmp, hd, hopt, ho, he, jsStr]

/-- A confirmed (`killOk = true`) kill of an attached process: the result
state is `destroyTmp` of the state with the process detached, and the
effects are the platform-specific termination effects followed by
`destroyTmp`'s effects. -/
theorem launcherKill_ok_spec (env : Env) (st : LauncherState) (c : ChildProc)
    (hc : st.chrome = some c) :
    ∃ effs2,
      launcherKill env true st = .ok ((destroyTmp { st with chrome := none }).1, effs2)
      ∧ (∀ e ∈ (destroyTmp { st with chrome := none }).2, e ∈ effs2)
      ∧ ∀ e ∈ effs2,
          e ∈ (destroyTmp { st with chrome := none }).2
          ∨ (∃ q, e = Effect.killProcGroup q) ∨ (∃ q, e = Effect.taskkill q) := by
  by_cases hw : env.platform = .win32
  · refine ⟨Effect.taskkill c.pid :: (destroyTmp { st with chrome := none }).2, ?_, ?_, ?_⟩
    · simp [launcherKill, hc, hw]
    · intro e he
      simp [he]
    · intro e he
      rcases List.mem_cons.mp he with rfl | hmem
      · exact Or.inr (Or.inr ⟨c.pid, rfl⟩)
      · exact Or.inl hmem
  · cases hp : c.pid with
    | none =>
      refine ⟨(destroyTmp { st with chrome := none }).2, ?_, ?_, ?_⟩
      · simp [launcherKill, hc, hw, hp]
      · intro e he; exact he
      · intro e he; exact Or.inl he
    | some p =>
      by_cases hp0 : p ≠ 0
      · refine ⟨Effect.killProcGroup p :: (destroyTmp { st with chrome := none }).2,
          ?_, ?_, ?_⟩
        · simp [launcherKill, hc, hw, hp, hp0]
        · intro e he
          simp [he]
        · intro e he
          rcases List.mem_cons.mp he with rfl | hmem
          · exact Or.inr (Or.inl ⟨p, rfl⟩)
          · exact Or.inl hmem
      · refine ⟨(destroyTmp { st with chrome := none }).2, ?_, ?_, ?_⟩
        · simp [launcherKill, hc, hw, hp, hp0]
        · intro e he; exact he
        · intro e he; exact Or.inl he

/-- C7: when a kill of a launcher with an attached process is confirmed,
the user-data directory is removed recursively exactly when the launcher
generated it itself (no `userDataDir` option was given); a caller-supplied
directory — explicit path or the boolean-false default-profile mode, both
of which leave `opts.userDataDir` defined — is never deleted. -/
theorem directory_ownership :
    ∀ (env : Env) (st : LauncherState) (c : ChildProc) (d : String),
      st.chrome = some c → st.userDataDir = some d →
      ∃ st2 effs,
        launcherKill env true st = .ok (st2, effs)
        ∧ (st.optsUserDataDir = .unset → Effect.removeDirRecursive d ∈ effs)
        ∧ (st.optsUserDataDir ≠ .unset → ∀ x, Effect.removeDirRecursive x ∉ effs) := by
  intro env st c d hc hd
  obtain ⟨effs2, heq, hsub, hmem⟩ := launcherKill_ok_spec env st c hc
  refine ⟨_, effs2, heq, ?_, ?_⟩
  · intro hopt
    exact hsub _ ((destroyTmp_owned_spec { st with chrome := none } d
      (by simpa using hd) (by simpa using hopt)).2.2.2.2.2.1)
  · intro hopt x hx
    rcases hmem _ hx with hdt | ⟨q, hq⟩ | ⟨q, hq⟩
    · rw [destroyTmp_not_owned { st with chrome := none }
        (Or.inr (by simpa using hopt))] at hdt
      simp at hdt
    · exact Effect.noConfusion hq
    · exact Effect.noConfusion hq

/-- C7 (witness): a launcher that generated `/tmp/lighthouse.123` itself. -/
theorem directory_ownership_witness :
    ∃ st2 effs,
      launcherKill sampleEnv true ownedDirState = .ok (st2, effs)
      ∧ (ownedDirState.optsUserDataDir = .unset →
          Effect.removeDirRecursive "/tmp/lighthouse.123" ∈ effs)
      ∧ (ownedDirState.optsUserDataDir ≠ .unset →
          ∀ x, Effect.removeDirRecursive x ∉ effs) :=
  directory_ownership sampleEnv ownedDirState ⟨some 1234⟩ "/tmp/lighthouse.123" rfl rfl

/-- C8 (counterexample): a launcher with a caller-supplied user-data
directory and both log fds open.  A confirmed kill resolves with the only
effect being the process-group kill: `destroyTmp` returns before the
`closeSync` calls, so neither fd is closed and both remain recorded open in
the resulting state, contradicting the claim that the log fds are closed
even when the directory was caller-supplied. -/
theorem caller_dir_kill_leaves_fds_open :
    launcherKill sampleEnv true callerDirState
      = .ok ({ callerDirState with chrome := none }, [Effect.killProcGroup 1234])
    ∧ callerDirState.outFile = some 3 ∧ callerDirState.errFile = some 4
    ∧ ({ callerDirState with chrome := none } : LauncherState).outFile = some 3
    ∧ ({ callerDirState with chrome := none } : LauncherState).errFile = some 4 :=
  ⟨rfl, rfl, rfl, rfl, rfl⟩

/-- C8 (amended): after a confirmed kill, the log fds are closed exactly
when the launcher owns its user-data directory: when no `userDataDir`
option was given, both fds, if open, are closed and cleared; when the
directory was caller-supplied, `destroyTmp` resolves before the close calls
and both fds remain open and recorded. -/
theorem fd_close_only_for_owned_dir :
    ∀ (env : Env) (st : LauncherState) (c : ChildProc),
      st.chrome = some c →
      ((st.optsUserDataDir = .unset → ∀ d, st.userDataDir = some d →
         ∃ st2 effs, launcherKill env true st = .ok (st2, effs)
           ∧ st2.outFile = none ∧ st2.errFile = none
           ∧ (∀ fd, st.outFile = some fd → Effect.closeFd fd ∈ effs)
           ∧ (∀ fd, st.errFile = some fd → Effect.closeFd fd ∈ effs))
       ∧ (st.optsUserDataDir ≠ .unset →
         ∃ st2 effs, launcherKill env true st = .ok (st2, effs)
           ∧ st2.outFile = st.outFile ∧ st2.errFile = st.errFile
           ∧ ∀ fd, Effect.closeFd fd ∉ effs)) := by
  intro env st c hc
  obtain ⟨effs2, heq, hsub, hmem⟩ := launcherKill_ok_spec env st c hc
  constructor
  · intro hopt d hd
    obtain ⟨hout, herr, _, hcout, hcerr, _, _, _⟩ :=
      destroyTmp_owned_spec { st with chrome := none } d (by simpa using hd)
        (by simpa using hopt)
    exact ⟨_, effs2, heq, hout, herr,
      fun fd hfd => hsub _ (hcout fd (by simpa using hfd)),
      fun fd hfd => hsub _ (hcerr fd (by simpa using hfd))⟩
  · intro hopt
    have hnd := destroyTmp_not_owned { st with chrome := none }
      (Or.inr (by simpa using hopt))
    rw [hnd] at heq hmem
    refine ⟨_, effs2, heq, rfl, rfl, ?_⟩
    intro fd hfd
    rcases hmem _ hfd with hdt | ⟨q, hq⟩ | ⟨q, hq⟩
    · simp at hdt
    · exact Effect.noConfusion hq
    · exact Effect.noConfusion hq

/-- C8 amended (witness): the owned-directory clause evaluated on the
launcher that generated its temp directory. -/
theorem fd_close_only_for_owned_dir_witness :
    ∃ st2 effs, launcherKill sampleEnv true ownedDirState = .ok (st2, effs)
      ∧ st2.outFile = none ∧ st2.errFile = none
      ∧ (∀ fd, ownedDirState.outFile = some fd → Effect.closeFd fd ∈ effs)
      ∧ (∀ fd, ownedDirState.errFile = some fd → Effect.closeFd fd ∈ effs) :=
  (fd_close_only_for_owned_dir sampleEnv ownedDirState ⟨some 1234⟩ rfl).1 rfl
    "/tmp/lighthouse.123" rfl

end ChromeLauncher
